import Mathlib

/-!
Verification of the authentication core of a FastAPI OTP-login template.

The development shallowly embeds the authentication state machine:
the user read/write store (app/models/users.py), the OTP request route
(app/api/v1/user/routes.py, register_or_login_user), the OTP verify and
token issuance route (app/api/v1/auth/routes.py, get_token), the refresh
and logout routes (same file), and the authorization guard
(app/services/oauth2.py, protected_route).

Timestamps are integers counting seconds (the source strips microseconds
via get_current_timestamp, so second resolution is exact).  Durations from
the configuration are seconds for the OTP TTL and minutes for the token
TTLs, exactly as in app/config.py.
-/

namespace FastAuth

/-- Kind of a signed token: access or refresh. -/
inductive TokenKind where
  | access
  | refresh
  deriving DecidableEq, Repr

/-- Modelled from the spec: the external JWT library (not repository code)
signs tokens carrying a subject, a kind, and an expiry instant; section 4.3
of the design describes exactly this shape. -/
structure Token where
  subject : String
  kind : TokenKind
  expiresAt : Int
  deriving DecidableEq, Repr

/-- Result of verifying a token against an expected kind. -/
inductive VerifyResult where
  | ok (subject : String)
  | expired
  | wrongKind
  deriving DecidableEq, Repr

/-- Modelled from the spec: verify(token, expectedKind) distinguishes a
wrong-kind token from an expired one and otherwise returns the subject.
The spec fixes no order between the two checks; the kind check is modelled
first. -/
def verifyToken (t : Token) (expected : TokenKind) (now : Int) : VerifyResult :=
  if t.kind ≠ expected then VerifyResult.wrongKind
  else if t.expiresAt < now then VerifyResult.expired
  else VerifyResult.ok t.subject

/-- Configuration constants consumed by the routes (app/config.py):
OTP_EXPIRED_TIME is in seconds, the token TTLs are in minutes. -/
structure Config where
  DEBUG_MODE : Bool
  OTP_EXPIRED_TIME : Int
  ACCESS_TOKEN_EXPIRES_IN : Int
  REFRESH_TOKEN_EXPIRES_IN : Int
  deriving DecidableEq, Repr

/-- Modelled from the spec: issuing an access token binds the subject and
an expiry of ACCESS_TOKEN_EXPIRES_IN minutes from now (the route passes
exactly this timedelta to the external library). -/
def create_access_token (subject : String) (now : Int) (cfg : Config) : Token :=
  { subject := subject, kind := TokenKind.access,
    expiresAt := now + cfg.ACCESS_TOKEN_EXPIRES_IN * 60 }

/-- Modelled from the spec: issuing a refresh token binds the subject and
an expiry of REFRESH_TOKEN_EXPIRES_IN minutes from now. -/
def create_refresh_token (subject : String) (now : Int) (cfg : Config) : Token :=
  { subject := subject, kind := TokenKind.refresh,
    expiresAt := now + cfg.REFRESH_TOKEN_EXPIRES_IN * 60 }

/-- Modelled from the spec: the bcrypt hash of a text (app/controllers/utils.py
hash_text delegates to the external passlib collaborator).  Only the
verify(t, hash(t)) = true contract matters to the core. -/
def hash_text (text : String) : String :=
  "bcrypt$" ++ text

/-- Modelled from the spec: verify_hashed_text(text, hashed) holds exactly
when hashed is the hash of text (app/controllers/utils.py). -/
def verify_hashed_text (text hashed : String) : Bool :=
  hash_text text == hashed

/-- A user row: the identity fields of base_users joined with users
(app/models/base_users.py and app/models/users.py).  Profile columns the
core never reads are omitted except age, which get_token tests for the
is_new_user flag. -/
structure UserRec where
  id : String
  email : String
  username : String
  hashedOtp : Option String
  otpCreatedAt : Option Int
  lastLoginAt : Option Int
  isActive : Bool
  age : Option Int
  roleId : Option Int
  deriving DecidableEq, Repr

/-- The credential store: the users table as a list of rows. -/
abbrev Store := List UserRec

/-- User.read (app/models/users.py): select the row whose id matches;
there is no filter on is_active. -/
def read (store : Store) (uid : String) : Option UserRec :=
  store.find? (fun u => u.id == uid)

/-- User.read_for_auth (app/models/users.py): same row selection as read,
projecting the auth-relevant columns; no filter on is_active. -/
def read_for_auth (store : Store) (uid : String) : Option UserRec :=
  store.find? (fun u => u.id == uid)

/-- User.read_by_email (app/models/users.py): select the row whose email
matches; there is no filter on is_active. -/
def read_by_email (store : Store) (email : String) : Option UserRec :=
  store.find? (fun u => u.email == email)

/-- User.update_for_token (app/models/users.py): overwrite hashed_otp,
otp_created_at and last_login_at on the row with the given id.  The routes
only call it after a successful read, so the row is present. -/
def update_for_token (store : Store) (uid : String) (otp : Option String)
    (created lastLogin : Option Int) : Store :=
  store.map (fun u =>
    if u.id == uid then
      { u with hashedOtp := otp, otpCreatedAt := created, lastLoginAt := lastLogin }
    else u)

/-- CreateUser.execute (app/api/v1/user/operations.py): look the email up;
if absent, create a fresh row (User.create): username is the local part of
the email, with a random numeric suffix appended on collision, the row
starts with no OTP, no login, active, role 1.  The fresh id and the random
suffix are nondeterministic inputs, passed explicitly. -/
def create_user (store : Store) (email freshId freshSuffix : String) :
    UserRec × Store :=
  match read_by_email store email with
  | some u => (u, store)
  | none =>
      let base := (email.splitOn "@").getD 0 ""
      let uname :=
        if store.any (fun v => v.username == base) then base ++ freshSuffix else base
      let u : UserRec :=
        { id := freshId, email := email, username := uname, hashedOtp := none,
          otpCreatedAt := none, lastLoginAt := none, isActive := true,
          age := none, roleId := some 1 }
      (u, store ++ [u])

/-- Condition of the DEBUG_MODE short-circuit in both routes: the user has
a last_login_at and it plus the access-token TTL has not passed. -/
def loggedInWindow (cfg : Config) (u : UserRec) (now : Int) : Bool :=
  match u.lastLoginAt with
  | none => false
  | some t => t + cfg.ACCESS_TOKEN_EXPIRES_IN * 60 ≥ now

/-- Outcome of the register_or_login_user route (request an OTP). -/
inductive RequestOtpResult where
  | alreadyReported (detail : String)
  | retryLater (secs : Int)
  | otpSent (debugOtp : Option String)
  deriving DecidableEq, Repr

/-- Tail of register_or_login_user (app/api/v1/user/routes.py): hash the
fresh OTP, store it with the creation instant, clear last_login_at, and
answer 201; the plaintext OTP is echoed only in DEBUG_MODE.  Mail delivery
is an external fire-and-forget collaborator and is not modelled. -/
def issue_fresh_otp (cfg : Config) (store : Store) (uid freshOtp : String)
    (now : Int) : RequestOtpResult × Store :=
  (RequestOtpResult.otpSent (if cfg.DEBUG_MODE then some freshOtp else none),
   update_for_token store uid (some (hash_text freshOtp)) (some now) none)

/-- register_or_login_user (app/api/v1/user/routes.py): create or fetch the
user, then, only when DEBUG_MODE is true, short-circuit an already-logged-in
user with 208 and reject a still-valid outstanding OTP with a retry delay
(the Python timedelta .seconds component, i.e. the difference modulo 86400);
otherwise issue a fresh OTP, overwriting whatever was stored. -/
def register_or_login_user (cfg : Config) (store : Store)
    (email freshId freshSuffix freshOtp : String) (now : Int) :
    RequestOtpResult × Store :=
  let res := create_user store email freshId freshSuffix
  let user := res.1
  let st1 := res.2
  if cfg.DEBUG_MODE then
    if loggedInWindow cfg user now then
      (RequestOtpResult.alreadyReported "You are logged in.", st1)
    else
      match user.otpCreatedAt with
      | some c =>
          if ¬ (c + cfg.OTP_EXPIRED_TIME < now) then
            (RequestOtpResult.retryLater ((c + cfg.OTP_EXPIRED_TIME - now) % 86400), st1)
          else issue_fresh_otp cfg st1 user.id freshOtp now
      | none => issue_fresh_otp cfg st1 user.id freshOtp now
  else issue_fresh_otp cfg st1 user.id freshOtp now

/-- Outcome of the get_token route (submit an OTP, receive tokens). -/
inductive TokenResult where
  | notFound (detail : String)
  | alreadyReported (detail : String)
  | badRequest (detail : String)
  | internalError
  | success (isNewUser : Bool) (accessToken refreshToken : Token) (username : String)
  deriving DecidableEq, Repr

/-- get_token (app/api/v1/auth/routes.py): read the user by email (404 if
absent), short-circuit 208 in DEBUG_MODE when the login window is open,
400 when no OTP is outstanding; then compare the hash FIRST: on a match,
clear the OTP fields, set last_login_at, and issue both tokens; only on a
mismatch test expiry (expired gives 400 OTP expired, else 400 Incorrect
OTP).  A null otp_created_at alongside a set hash makes the Python raise a
TypeError, surfaced as a 500. -/
def get_token (cfg : Config) (store : Store) (email otp : String) (now : Int) :
    TokenResult × Store :=
  match read_by_email store email with
  | none => (TokenResult.notFound "User not found", store)
  | some user =>
    if cfg.DEBUG_MODE && loggedInWindow cfg user now then
      (TokenResult.alreadyReported "You are logged in.", store)
    else
      match user.hashedOtp with
      | none => (TokenResult.badRequest "User has not requested OTP yet", store)
      | some hs =>
        if verify_hashed_text otp hs then
          (TokenResult.success user.age.isNone
            (create_access_token user.id now cfg)
            (create_refresh_token user.id now cfg) user.username,
           update_for_token store user.id none none (some now))
        else
          match user.otpCreatedAt with
          | none => (TokenResult.internalError, store)
          | some c =>
            if c + cfg.OTP_EXPIRED_TIME < now then
              (TokenResult.badRequest "OTP expired", store)
            else (TokenResult.badRequest "Incorrect OTP", store)

/-- Outcome of the authorization guard. -/
inductive AuthResult where
  | ok (userId : String)
  | unauthorized (detail : String)
  deriving DecidableEq, Repr

/-- protected_route (app/services/oauth2.py): a missing token, a
wrong-kind token and an expired token give 401 with their library-specific
details; a verified subject is looked up with read_for_auth, and the row
being absent, inactive, or without last_login_at each gives 401 with its
own detail string; otherwise the user id is returned. -/
def protected_route (store : Store) (tok : Option Token) (now : Int) : AuthResult :=
  match tok with
  | none => AuthResult.unauthorized "You are not logged in. Token is Missing"
  | some t =>
    match verifyToken t TokenKind.access now with
    | VerifyResult.wrongKind => AuthResult.unauthorized "Token is invalid"
    | VerifyResult.expired => AuthResult.unauthorized "Token has expired, login again"
    | VerifyResult.ok sub =>
      match read_for_auth store sub with
      | none => AuthResult.unauthorized "User not found"
      | some u =>
        if ¬ u.isActive then AuthResult.unauthorized "User no longer exist"
        else if u.lastLoginAt.isNone then
          AuthResult.unauthorized "Log in first to access this route"
        else AuthResult.ok u.id

/-- Outcome of the refresh_access_token route. -/
inductive RefreshResult where
  | ok (accessToken : Token)
  | unauthorized (detail : String)
  | badRequest (detail : String)
  | internalError (detail : String)
  deriving DecidableEq, Repr

/-- refresh_access_token (app/api/v1/auth/routes.py): require a
refresh-kind token (missing gives 400, wrong kind gives 401 Invalid
refresh token, expired gives 401), read the subject row by id with
ReadUser.execute — which filters neither last_login_at nor is_active — and
issue a fresh access token.  An empty subject or an absent row raises
inside the try block and surfaces as a 500. -/
def refresh_access_token (cfg : Config) (store : Store) (tok : Option Token)
    (now : Int) : RefreshResult :=
  match tok with
  | none => RefreshResult.badRequest "Provide refresh token"
  | some t =>
    match verifyToken t TokenKind.refresh now with
    | VerifyResult.wrongKind => RefreshResult.unauthorized "Invalid refresh token"
    | VerifyResult.expired =>
        RefreshResult.unauthorized "Refresh token has expired, login again"
    | VerifyResult.ok sub =>
      if sub = "" then RefreshResult.internalError "Could not refresh access token"
      else
        match read store sub with
        | none => RefreshResult.internalError "User not found"
        | some u => RefreshResult.ok (create_access_token u.id now cfg)

/-- Outcome of the logout route. -/
inductive LogoutResult where
  | ok (message : String)
  | unauthorized (detail : String)
  deriving DecidableEq, Repr

/-- logout_user (app/api/v1/auth/routes.py): the route depends on
protected_route, so an unauthorized guard verdict is the response; on
success the guard returns the user id and the route nulls hashed_otp,
otp_created_at and last_login_at on that row. -/
def logout_user (store : Store) (tok : Option Token) (now : Int) :
    LogoutResult × Store :=
  match protected_route store tok now with
  | AuthResult.unauthorized d => (LogoutResult.unauthorized d, store)
  | AuthResult.ok uid =>
      (LogoutResult.ok "Successfully logged out",
       update_for_token store uid none none none)

/-- Soft delete of a row: flip is_active off, everything else unchanged. -/
def deactivate (u : UserRec) : UserRec :=
  { u with isActive := false }

/-- Lookup by id finds the updated row after update_for_token on that id. -/
theorem find_id_update (store : Store) (uid : String) (otp : Option String)
    (created lastLogin : Option Int) (u : UserRec)
    (h : store.find? (fun x => x.id == uid) = some u) :
    (update_for_token store uid otp created lastLogin).find?
        (fun x => x.id == uid) =
      some { u with hashedOtp := otp, otpCreatedAt := created,
                    lastLoginAt := lastLogin } := by
  have hu : u.id = uid := by simpa using List.find?_some h
  unfold update_for_token
  rw [List.find?_map]
  have hp : ((fun x : UserRec => x.id == uid) ∘
      (fun x : UserRec => if x.id == uid then
        { x with hashedOtp := otp, otpCreatedAt := created,
                 lastLoginAt := lastLogin }
      else x)) = (fun x : UserRec => x.id == uid) := by
    funext x
    by_cases hx : x.id = uid
    · simp [hx]
    · simp [hx]
  rw [hp, h]
  simp [hu]

/-- Lookup by email finds the updated row after update_for_token keyed by
the id of the row that the email lookup finds. -/
theorem read_by_email_update (store : Store) (email : String)
    (otp : Option String) (created lastLogin : Option Int) (u : UserRec)
    (h : read_by_email store email = some u) :
    read_by_email (update_for_token store u.id otp created lastLogin) email =
      some { u with hashedOtp := otp, otpCreatedAt := created,
                    lastLoginAt := lastLogin } := by
  have h' : store.find? (fun x => x.email == email) = some u := h
  unfold read_by_email update_for_token
  rw [List.find?_map]
  have hp : ((fun x : UserRec => x.email == email) ∘
      (fun x : UserRec => if x.id == u.id then
        { x with hashedOtp := otp, otpCreatedAt := created,
                 lastLoginAt := lastLogin }
      else x)) = (fun x : UserRec => x.email == email) := by
    funext x
    by_cases hx : x.id = u.id
    · simp [hx]
    · simp [hx]
  rw [hp, h']
  simp

/-- The row that read_for_auth finds carries the id that was looked up. -/
theorem read_for_auth_id (store : Store) (uid : String) (u : UserRec)
    (h : read_for_auth store uid = some u) : u.id = uid := by
  have h' : store.find? (fun x => x.id == uid) = some u := h
  simpa using List.find?_some h'

/-- Verification succeeds on a token of the expected kind before expiry. -/
theorem verifyToken_ok_of (t : Token) (k : TokenKind) (now : Int)
    (hk : t.kind = k) (he : ¬ (t.expiresAt < now)) :
    verifyToken t k now = VerifyResult.ok t.subject := by
  simp [verifyToken, hk, he]

/-- Successful verification forces the kind, non-expiry and the subject. -/
theorem verifyToken_ok_inv (t : Token) (k : TokenKind) (now : Int)
    (sub : String) (h : verifyToken t k now = VerifyResult.ok sub) :
    t.kind = k ∧ ¬ (t.expiresAt < now) ∧ sub = t.subject := by
  unfold verifyToken at h
  by_cases h1 : t.kind = k
  · by_cases h2 : t.expiresAt < now
    · simp [h1, h2] at h
    · simp [h1, h2] at h
      exact ⟨h1, h2, h.symm⟩
  · simp [h1] at h

/-- A guard success means: a token was presented, it verified as an access
token to the id of a row that is present, active, and has a login mark. -/
theorem protected_route_ok_inv (store : Store) (tok : Option Token)
    (now : Int) (uid : String)
    (h : protected_route store tok now = AuthResult.ok uid) :
    ∃ t u, tok = some t ∧
      verifyToken t TokenKind.access now = VerifyResult.ok u.id ∧
      read_for_auth store u.id = some u ∧ u.isActive = true ∧
      u.lastLoginAt ≠ none ∧ uid = u.id := by
  match tok with
  | none => simp [protected_route] at h
  | some t =>
    simp only [protected_route] at h
    split at h
    · simp at h
    · simp at h
    · rename_i sub hv
      split at h
      · simp at h
      · rename_i u hf
        split at h
        · simp at h
        · split at h
          · simp at h
          · rename_i hact hlogin
            have hid : u.id = sub := read_for_auth_id store sub u hf
            have ha : u.isActive = true := by simpa using hact
            have hl : u.lastLoginAt ≠ none := by
              simpa [Option.isNone_iff_eq_none] using hlogin
            have huid : uid = u.id := by
              cases h
              rfl
            exact ⟨t, u, rfl, by rw [hid]; exact hv, by rw [hid]; exact hf,
              ha, hl, huid⟩

/-- A logout success means the guard accepted and the resulting store is
the accepted row with its OTP fields and login mark nulled. -/
theorem logout_ok_inv (store : Store) (tok : Option Token) (now : Int)
    (msg : String) (store2 : Store)
    (h : logout_user store tok now = (LogoutResult.ok msg, store2)) :
    ∃ t u, tok = some t ∧
      verifyToken t TokenKind.access now = VerifyResult.ok u.id ∧
      read_for_auth store u.id = some u ∧ u.isActive = true ∧
      u.lastLoginAt ≠ none ∧
      store2 = update_for_token store u.id none none none := by
  unfold logout_user at h
  cases hp : protected_route store tok now with
  | unauthorized d => rw [hp] at h; simp at h
  | ok uid =>
    rw [hp] at h
    obtain ⟨t, u, htok, hv, hf, ha, hl, huid⟩ :=
      protected_route_ok_inv store tok now uid hp
    have hst : store2 = update_for_token store uid none none none := by
      have := congrArg Prod.snd h
      exact this.symm
    exact ⟨t, u, htok, hv, hf, ha, hl, by rw [hst, huid]⟩

/-- Sample configuration with DEBUG_MODE off: a 300 second OTP TTL, a 15
minute access TTL, a 1440 minute refresh TTL. -/
def cfgOff : Config :=
  { DEBUG_MODE := false, OTP_EXPIRED_TIME := 300,
    ACCESS_TOKEN_EXPIRES_IN := 15, REFRESH_TOKEN_EXPIRES_IN := 1440 }

/-- Sample configuration with DEBUG_MODE on. -/
def cfgOn : Config :=
  { cfgOff with DEBUG_MODE := true }

/-- Sample user row with an outstanding OTP (code 1234 hashed, created at
instant 0) and no active session. -/
def alice : UserRec :=
  { id := "u1", email := "alice@x.com", username := "alice",
    hashedOtp := some (hash_text "1234"), otpCreatedAt := some 0,
    lastLoginAt := none, isActive := true, age := none, roleId := some 1 }

/-- Sample soft-deleted user row: alice with is_active false. -/
def aliceGone : UserRec :=
  { alice with isActive := false }

/-- Sample logged-in user row: alice with a session mark and no OTP. -/
def aliceIn : UserRec :=
  { alice with hashedOtp := none, otpCreatedAt := none, lastLoginAt := some 5 }

/-- Sample access token for user u1, expiring at instant 900. -/
def tkAccess : Token :=
  { subject := "u1", kind := TokenKind.access, expiresAt := 900 }

/-- Sample refresh token for user u1, expiring at instant 86400. -/
def tkRefresh : Token :=
  { subject := "u1", kind := TokenKind.refresh, expiresAt := 86400 }

/-- Claim C1: get_token compares the submitted code against the stored
hash first and consults expiry only inside the failed-comparison branch.
The claimed consequence is refuted: a correct code submitted after
otpCreatedAt + OTP_TTL passes the hash comparison, so the expiry branch is
never reached and login succeeds; only an incorrect late code is answered
with OTP expired.  (Amended form of the claim.) -/
theorem C1_expiry_ordering (cfg : Config) (store : Store) (email otp : String)
    (now c : Int) (u : UserRec) (hs : String)
    (hfind : read_by_email store email = some u)
    (hdbg : cfg.DEBUG_MODE = false)
    (hotp : u.hashedOtp = some hs)
    (hc : u.otpCreatedAt = some c)
    (hexp : c + cfg.OTP_EXPIRED_TIME < now) :
    (verify_hashed_text otp hs = true →
       (get_token cfg store email otp now).1 =
         TokenResult.success u.age.isNone (create_access_token u.id now cfg)
           (create_refresh_token u.id now cfg) u.username) ∧
    (verify_hashed_text otp hs = false →
       (get_token cfg store email otp now).1 =
         TokenResult.badRequest "OTP expired") := by
  constructor
  · intro hm
    simp [get_token, hfind, hdbg, hotp, hm]
  · intro hm
    simp [get_token, hfind, hdbg, hotp, hm, hc, hexp]

/-- Witness for C1 at a concrete input: a correct code five hundred
seconds late is accepted with both tokens issued. -/
theorem C1_witness :
    (get_token cfgOff [alice] "alice@x.com" "1234" 1000).1 =
      TokenResult.success true (create_access_token "u1" 1000 cfgOff)
        (create_refresh_token "u1" 1000 cfgOff) "alice" :=
  (C1_expiry_ordering cfgOff [alice] "alice@x.com" "1234" 1000 0 alice
    (hash_text "1234") (by decide) rfl rfl rfl (by decide)).1 (by decide)

/-- Counterexample to claim C1 as stated: with the OTP created at 0 and a
300 second TTL, the correct code 1234 submitted at instant 1000 is
accepted, not rejected as OTP expired. -/
theorem C1_counterexample :
    (get_token cfgOff [alice] "alice@x.com" "1234" 1000).1 =
      TokenResult.success true (create_access_token "u1" 1000 cfgOff)
        (create_refresh_token "u1" 1000 cfgOff) "alice" ∧
    (get_token cfgOff [alice] "alice@x.com" "1234" 1000).1 ≠
      TokenResult.badRequest "OTP expired" := by
  constructor
  · decide
  · decide

/-- Claim C2: the retry-backoff rejection of register_or_login_user runs
only when DEBUG_MODE is true.  In that mode, a request finding a
still-valid outstanding OTP (and a user outside the already-logged-in
short-circuit) is rejected with the store untouched and a retry delay of
(otpCreatedAt + OTP_TTL) - now, which is nonnegative and zero exactly at
the expiry boundary; the bound OTP_TTL < 86400 makes the Python timedelta
seconds component equal that difference.  (Amended form of the claim.) -/
theorem C2_backoff_debug_only (cfg : Config) (store : Store)
    (email freshId freshSuffix freshOtp : String) (now c : Int) (u : UserRec)
    (hdbg : cfg.DEBUG_MODE = true)
    (hfind : read_by_email store email = some u)
    (hlog : loggedInWindow cfg u now = false)
    (hc : u.otpCreatedAt = some c)
    (hne : ¬ (c + cfg.OTP_EXPIRED_TIME < now))
    (hcn : c ≤ now)
    (httl : cfg.OTP_EXPIRED_TIME < 86400) :
    register_or_login_user cfg store email freshId freshSuffix freshOtp now =
      (RequestOtpResult.retryLater (c + cfg.OTP_EXPIRED_TIME - now), store) ∧
    0 ≤ c + cfg.OTP_EXPIRED_TIME - now := by
  have hcu : create_user store email freshId freshSuffix = (u, store) := by
    unfold create_user
    rw [hfind]
  have hmod : (c + cfg.OTP_EXPIRED_TIME - now) % 86400 =
      c + cfg.OTP_EXPIRED_TIME - now := by omega
  constructor
  · simp [register_or_login_user, hcu, hdbg, hlog, hc, hne, hmod]
  · omega

/-- Witness for C2 at a concrete input: in DEBUG_MODE, a second request
ten seconds after issuance is rejected with a 290 second delay and the
store is unchanged. -/
theorem C2_witness :
    register_or_login_user cfgOn [alice] "alice@x.com" "u9" "77" "5678" 10 =
      (RequestOtpResult.retryLater 290, [alice]) ∧ (0 : Int) ≤ 290 :=
  C2_backoff_debug_only cfgOn [alice] "alice@x.com" "u9" "77" "5678" 10 0 alice
    rfl (by decide) (by decide) rfl (by decide) (by decide) (by decide)

/-- Counterexample to claim C2 as stated: with DEBUG_MODE false the same
request overwrites the still-valid OTP instead of rejecting, and with
DEBUG_MODE true a request exactly at the expiry boundary is rejected with
a zero, not positive, retry delay. -/
theorem C2_counterexample :
    ((register_or_login_user cfgOff [alice] "alice@x.com" "u9" "77" "5678" 10).1 =
        RequestOtpResult.otpSent none ∧
      read_by_email
          (register_or_login_user cfgOff [alice] "alice@x.com" "u9" "77" "5678" 10).2
          "alice@x.com" =
        some { alice with hashedOtp := some (hash_text "5678"),
                          otpCreatedAt := some 10, lastLoginAt := none }) ∧
    (register_or_login_user cfgOn [alice] "alice@x.com" "u9" "77" "5678" 300).1 =
      RequestOtpResult.retryLater 0 := by
  refine ⟨⟨?_, ?_⟩, ?_⟩ <;> decide

/-- Claim C3 amended: the store lookups filter only on the key, never on
is_active, so soft-deleting rows commutes with lookup — a soft-deleted
record is returned by the email and id read paths rather than treated as
absent; only the authorization guard inspects is_active, after the lookup. -/
theorem C3_lookups_ignore_isActive (store : Store) (email uid : String) :
    read_by_email (store.map deactivate) email =
      (read_by_email store email).map deactivate ∧
    read (store.map deactivate) uid = (read store uid).map deactivate := by
  constructor
  · unfold read_by_email
    rw [List.find?_map]
    rfl
  · unfold read
    rw [List.find?_map]
    rfl

/-- Counterexample to claim C3 as stated: a soft-deleted row is visible to
the email and id lookups, and the login route even issues tokens to it. -/
theorem C3_counterexample :
    read_by_email [aliceGone] "alice@x.com" = some aliceGone ∧
    read [aliceGone] "u1" = some aliceGone ∧
    (get_token cfgOff [aliceGone] "alice@x.com" "1234" 10).1 =
      TokenResult.success true (create_access_token "u1" 10 cfgOff)
        (create_refresh_token "u1" 10 cfgOff) "alice" := by
  refine ⟨?_, ?_, ?_⟩ <;> decide

/-- Claim C4 amended: the three store-state rejection causes of the guard
all surface as the same unauthorized error class, but each carries its own
detail text — User not found, User no longer exist, Log in first to access
this route — so the internal cause is distinguishable from the message. -/
theorem C4_message_taxonomy (store : Store) (t : Token) (now : Int)
    (sub : String)
    (hv : verifyToken t TokenKind.access now = VerifyResult.ok sub) :
    (read_for_auth store sub = none →
       protected_route store (some t) now =
         AuthResult.unauthorized "User not found") ∧
    (∀ u, read_for_auth store sub = some u → u.isActive = false →
       protected_route store (some t) now =
         AuthResult.unauthorized "User no longer exist") ∧
    (∀ u, read_for_auth store sub = some u → u.isActive = true →
       u.lastLoginAt = none →
       protected_route store (some t) now =
         AuthResult.unauthorized "Log in first to access this route") := by
  refine ⟨?_, ?_, ?_⟩
  · intro hf
    simp [protected_route, hv, hf]
  · intro u hf ha
    simp [protected_route, hv, hf, ha]
  · intro u hf ha hl
    simp [protected_route, hv, hf, ha, hl]

/-- Witness for C4 at a concrete input: a valid token for a user without a
session mark is rejected with the log-in-first detail. -/
theorem C4_witness :
    protected_route [alice] (some tkAccess) 0 =
      AuthResult.unauthorized "Log in first to access this route" :=
  (C4_message_taxonomy [alice] tkAccess 0 "u1" (by decide)).2.2 alice
    (by decide) rfl rfl

/-- Counterexample to claim C4 as stated: the three rejection causes
produce pairwise distinct detail strings, so they are not
indistinguishable to the caller. -/
theorem C4_counterexample :
    protected_route [aliceGone] (some tkAccess) 0 =
      AuthResult.unauthorized "User no longer exist" ∧
    protected_route [alice] (some tkAccess) 0 =
      AuthResult.unauthorized "Log in first to access this route" ∧
    protected_route [] (some tkAccess) 0 =
      AuthResult.unauthorized "User not found" ∧
    "User no longer exist" ≠ "Log in first to access this route" ∧
    "User no longer exist" ≠ "User not found" ∧
    "Log in first to access this route" ≠ "User not found" := by
  refine ⟨?_, ?_, ?_, ?_, ?_, ?_⟩ <;> decide

/-- Claim C5 amended: logout is not idempotent, because the route runs the
authorization guard first.  Calling it for a user whose last_login_at is
null fails with 401 Log in first to access this route and leaves the store
unchanged, and after one successful logout an immediate second call with
the same token fails the same way rather than succeeding. -/
theorem C5_logout_not_idempotent (store : Store) (t : Token) (now : Int) :
    (∀ u, verifyToken t TokenKind.access now = VerifyResult.ok u.id →
       read_for_auth store u.id = some u → u.isActive = true →
       u.lastLoginAt = none →
       logout_user store (some t) now =
         (LogoutResult.unauthorized "Log in first to access this route",
          store)) ∧
    (∀ msg store2,
       logout_user store (some t) now = (LogoutResult.ok msg, store2) →
       (logout_user store2 (some t) now).1 =
         LogoutResult.unauthorized "Log in first to access this route") := by
  constructor
  · intro u hv hf ha hl
    simp [logout_user, protected_route, hv, hf, ha, hl]
  · intro msg store2 h
    obtain ⟨t', u, htok, hv, hf, ha, hl, hst⟩ :=
      logout_ok_inv store (some t) now msg store2 h
    have ht : t' = t := (Option.some.inj htok).symm
    subst ht
    have hupd := find_id_update store u.id none none none u hf
    have hf2 : read_for_auth store2 u.id =
        some { u with hashedOtp := none, otpCreatedAt := none,
                      lastLoginAt := none } := by
      rw [hst]
      exact hupd
    have hroute : protected_route store2 (some t') now =
        AuthResult.unauthorized "Log in first to access this route" := by
      simp [protected_route, hv, hf2, ha]
    simp [logout_user, hroute]

/-- Witness for C5 at a concrete input: logging out a logged-out user is
rejected with the log-in-first detail and the store is unchanged. -/
theorem C5_witness :
    logout_user [alice] (some tkAccess) 0 =
      (LogoutResult.unauthorized "Log in first to access this route",
       [alice]) :=
  (C5_logout_not_idempotent [alice] tkAccess 0).1 alice (by decide)
    (by decide) rfl rfl

/-- Counterexample to claim C5 as stated: logout of an already-logged-out
user is not a no-op success, and of two logout calls in a row the second
one fails. -/
theorem C5_counterexample :
    (logout_user [alice] (some tkAccess) 0).1 ≠
      LogoutResult.ok "Successfully logged out" ∧
    (logout_user [aliceIn] (some tkAccess) 0).1 =
      LogoutResult.ok "Successfully logged out" ∧
    (logout_user (logout_user [aliceIn] (some tkAccess) 0).2
        (some tkAccess) 0).1 =
      LogoutResult.unauthorized "Log in first to access this route" := by
  refine ⟨?_, ?_, ?_⟩ <;> decide

/-- Claim C6: presenting an access-kind token to the refresh route fails
with 401 Invalid refresh token — the wrong-kind rejection — and in
particular never returns a new access token. -/
theorem C6_wrong_kind_refresh (cfg : Config) (store : Store) (t : Token)
    (now : Int) (hk : t.kind = TokenKind.access) :
    refresh_access_token cfg store (some t) now =
      RefreshResult.unauthorized "Invalid refresh token" := by
  simp [refresh_access_token, verifyToken, hk]

/-- Witness for C6 at a concrete input: the sample access token is
rejected by refresh. -/
theorem C6_witness :
    refresh_access_token cfgOff [alice] (some tkAccess) 0 =
      RefreshResult.unauthorized "Invalid refresh token" :=
  C6_wrong_kind_refresh cfgOff [alice] tkAccess 0 rfl

/-- Claim C7: after a successful logout, authenticating with the same,
still unexpired access token fails with 401 Log in first to access this
route, because logout nulled last_login_at in the store and the guard
reads store state. -/
theorem C7_logout_invalidates_token (store : Store) (t : Token)
    (now now2 : Int) (msg : String) (store2 : Store)
    (h : logout_user store (some t) now = (LogoutResult.ok msg, store2))
    (hvalid : ¬ (t.expiresAt < now2)) :
    protected_route store2 (some t) now2 =
      AuthResult.unauthorized "Log in first to access this route" := by
  obtain ⟨t', u, htok, hv, hf, ha, hl, hst⟩ :=
    logout_ok_inv store (some t) now msg store2 h
  have ht : t' = t := (Option.some.inj htok).symm
  subst ht
  obtain ⟨hk, he, hsub⟩ := verifyToken_ok_inv t' TokenKind.access now u.id hv
  have hv2 : verifyToken t' TokenKind.access now2 = VerifyResult.ok u.id := by
    rw [hsub]
    exact verifyToken_ok_of t' TokenKind.access now2 hk hvalid
  have hupd := find_id_update store u.id none none none u hf
  have hf2 : read_for_auth store2 u.id =
      some { u with hashedOtp := none, otpCreatedAt := none,
                    lastLoginAt := none } := by
    rw [hst]
    exact hupd
  simp [protected_route, hv2, hf2, ha]

/-- Witness for C7 at a concrete input: after logging the sample
logged-in user out, the same unexpired token is rejected. -/
theorem C7_witness :
    protected_route (logout_user [aliceIn] (some tkAccess) 0).2
        (some tkAccess) 0 =
      AuthResult.unauthorized "Log in first to access this route" :=
  C7_logout_invalidates_token [aliceIn] tkAccess 0 0 "Successfully logged out"
    (logout_user [aliceIn] (some tkAccess) 0).2 (by decide) (by decide)

/-- Claim C8 amended: a successful login clears hashed_otp and
otp_created_at and sets last_login_at; a second verify of any code then
fails with 400 User has not requested OTP yet — provided DEBUG_MODE is
off.  (When DEBUG_MODE is on and the access window is still open the
second call is instead short-circuited to 208 You are logged in, as the
counterexample shows.) -/
theorem C8_otp_consumed (cfg : Config) (store : Store) (email otp : String)
    (now : Int) (u : UserRec) (hs : String)
    (hfind : read_by_email store email = some u)
    (hdbg : cfg.DEBUG_MODE = false)
    (hotp : u.hashedOtp = some hs)
    (hmatch : verify_hashed_text otp hs = true) :
    read_by_email (get_token cfg store email otp now).2 email =
      some { u with hashedOtp := none, otpCreatedAt := none,
                    lastLoginAt := some now } ∧
    ∀ otp2 now2,
      (get_token cfg (get_token cfg store email otp now).2 email otp2 now2).1 =
        TokenResult.badRequest "User has not requested OTP yet" := by
  have hsnd : (get_token cfg store email otp now).2 =
      update_for_token store u.id none none (some now) := by
    simp [get_token, hfind, hdbg, hotp, hmatch]
  have hf2 := read_by_email_update store email none none (some now) u hfind
  constructor
  · rw [hsnd]
    exact hf2
  · intro otp2 now2
    rw [hsnd]
    simp [get_token, hf2, hdbg]

/-- Witness for C8 at a concrete input: after a login at instant 7 the
row holds no OTP and last_login_at 7, and re-submitting the same code at
instant 9 is answered with the no-OTP-requested rejection. -/
theorem C8_witness :
    read_by_email (get_token cfgOff [alice] "alice@x.com" "1234" 7).2
        "alice@x.com" =
      some { alice with hashedOtp := none, otpCreatedAt := none,
                        lastLoginAt := some 7 } ∧
    (get_token cfgOff (get_token cfgOff [alice] "alice@x.com" "1234" 7).2
        "alice@x.com" "1234" 9).1 =
      TokenResult.badRequest "User has not requested OTP yet" := by
  have h := C8_otp_consumed cfgOff [alice] "alice@x.com" "1234" 7 alice
    (hash_text "1234") (by decide) rfl rfl (by decide)
  exact ⟨h.1, h.2 "1234" 9⟩

/-- Counterexample to claim C8 as stated: with DEBUG_MODE on, a second
verify right after a successful login returns 208 You are logged in, not
the claimed no-OTP-requested rejection. -/
theorem C8_counterexample :
    (get_token cfgOn [alice] "alice@x.com" "1234" 10).1 =
      TokenResult.success true (create_access_token "u1" 10 cfgOn)
        (create_refresh_token "u1" 10 cfgOn) "alice" ∧
    (get_token cfgOn (get_token cfgOn [alice] "alice@x.com" "1234" 10).2
        "alice@x.com" "1234" 10).1 =
      TokenResult.alreadyReported "You are logged in." ∧
    (get_token cfgOn (get_token cfgOn [alice] "alice@x.com" "1234" 10).2
        "alice@x.com" "1234" 10).1 ≠
      TokenResult.badRequest "User has not requested OTP yet" := by
  refine ⟨?_, ?_, ?_⟩ <;> decide

/-- Claim C9: refresh verifies only the refresh token and that a user row
with the subject id exists; it never consults last_login_at or is_active,
so a logged-out or soft-deleted user still receives a fresh access token. -/
theorem C9_refresh_ignores_session (cfg : Config) (store : Store)
    (t : Token) (now : Int) (u : UserRec)
    (hk : t.kind = TokenKind.refresh) (he : ¬ (t.expiresAt < now))
    (hsub : t.subject ≠ "")
    (hfind : read store t.subject = some u)
    (hstale : u.lastLoginAt = none ∨ u.isActive = false) :
    refresh_access_token cfg store (some t) now =
      RefreshResult.ok (create_access_token u.id now cfg) := by
  have hv := verifyToken_ok_of t TokenKind.refresh now hk he
  simp [refresh_access_token, hv, hsub, hfind]

/-- Witness for C9 at a concrete input: the soft-deleted, logged-out
sample user still refreshes successfully. -/
theorem C9_witness :
    refresh_access_token cfgOff [aliceGone] (some tkRefresh) 0 =
      RefreshResult.ok (create_access_token "u1" 0 cfgOff) :=
  C9_refresh_ignores_session cfgOff [aliceGone] tkRefresh 0 aliceGone rfl
    (by decide) (by decide) (by decide) (Or.inr rfl)

/-- Claim C10: issuing an access token for a subject and verifying it as
an access token at any instant within its TTL returns exactly that
subject. -/
theorem C10_roundtrip (cfg : Config) (uid : String) (now now2 : Int)
    (h : ¬ (now + cfg.ACCESS_TOKEN_EXPIRES_IN * 60 < now2)) :
    verifyToken (create_access_token uid now cfg) TokenKind.access now2 =
      VerifyResult.ok uid := by
  simp [create_access_token, verifyToken, h]

/-- Witness for C10 at a concrete input: a token minted at instant 100
verifies to its subject at instant 500. -/
theorem C10_witness :
    verifyToken (create_access_token "u1" 100 cfgOff) TokenKind.access 500 =
      VerifyResult.ok "u1" :=
  C10_roundtrip cfgOff "u1" 100 500 (by decide)

end FastAuth
